import Mathlib

/-!
Verification of the output-formatting and interactive-setup layer of a
whisper-based transcription CLI (transcribe.py).  The Python source is
shallowly embedded: pure fragments become Lean functions on `List Char`,
`Nat`, `Int` and `ℚ`; the file-system effects of the output phase of
`main` become explicit state passing over a `FileSystem` record; the
interactive prompts become functions consuming a list of input lines and
returning `Option` (a `none` models an exhausted input stream, i.e. an
uncaught `EOFError`).  Machine floats that flow through the code
(segment start and end times) are modelled as rationals; the shortest
round-trip decimal rendering of a Python float is kept abstract as a
`numRender` parameter where it is needed.
-/

/-! ## Decimal rendering of integers (Python `str` and zero-padded format specs) -/

/-- Test for an ASCII decimal digit character. -/
def isDigitChar (c : Char) : Bool := 48 ≤ c.toNat && c.toNat ≤ 57

/-- The decimal digit character for `d % 10`. -/
def digitChar (d : Nat) : Char := Char.ofNat (48 + d % 10)

/-- Fuelled most-significant-first decimal digit list of a natural number. -/
def natDigitsAux : Nat → Nat → List Char
  | 0, _ => []
  | fuel + 1, n =>
    if n < 10 then [digitChar n]
    else natDigitsAux fuel (n / 10) ++ [digitChar (n % 10)]

/-- Decimal digit list of a natural number, most significant first. -/
def natDigits (n : Nat) : List Char := natDigitsAux (n + 1) n

/-- Decimal string of a natural number, as Python `str` renders a
non-negative `int`. -/
def natRepr (n : Nat) : String := String.mk (natDigits n)

/-- Zero-padding to a minimum width, as the Python format spec `{n:0w}`
renders a non-negative integer. -/
def natPad (w : Nat) (n : Nat) : String :=
  String.mk (List.replicate (w - (natDigits n).length) '0' ++ natDigits n)

/-- Python `{n:0w}` formatting of a possibly negative integer: the sign
occupies one column of the field width and the zero padding follows it. -/
def intPad (w : Nat) (n : Int) : String :=
  if n < 0 then "-" ++ natPad (w - 1) n.natAbs else natPad w n.natAbs

/-! ## Python string helpers used by transcribe.py -/

/-- Whitespace characters stripped by Python `str.strip()` (the ASCII
ones; the segments and prompts handled by the tool stay in this range). -/
def pyIsSpace (c : Char) : Bool :=
  c == ' ' || c == '\t' || c == '\n' || c == '\r' || c == '\x0b' || c == '\x0c'

/-- Python `str.strip()` on a character list. -/
def pyStripList (l : List Char) : List Char :=
  ((l.dropWhile pyIsSpace).reverse.dropWhile pyIsSpace).reverse

/-- Python `str.strip()`. -/
def pyStrip (s : String) : String := String.mk (pyStripList s.data)

/-- Python `str.strip(c)` for a single character argument: removes every
leading and trailing occurrence of `c`. -/
def stripCharList (c : Char) (l : List Char) : List Char :=
  ((l.dropWhile (· == c)).reverse.dropWhile (· == c)).reverse

/-- Python `str.strip(c)` on strings. -/
def stripChar (c : Char) (s : String) : String := String.mk (stripCharList c s.data)

/-- ASCII lower-casing of one character, as Python `str.lower()` acts on
the ASCII tokens handled by the tool. -/
def charLower (c : Char) : Char :=
  if 'A' ≤ c && c ≤ 'Z' then Char.ofNat (c.toNat + 32) else c

/-- Python `str.lower()` restricted to ASCII content. -/
def strLower (s : String) : String := String.mk (s.data.map charLower)

/-- Split a character list at every occurrence of a separator character,
as Python `str.split(sep)` with a one-character separator. -/
def splitOnChar (sep : Char) : List Char → List (List Char)
  | [] => [[]]
  | c :: rest =>
    if c == sep then [] :: splitOnChar sep rest
    else
      match splitOnChar sep rest with
      | [] => [[c]]
      | h :: t => (c :: h) :: t

/-! ## Timestamp formatting (format_srt_timestamp, transcribe.py lines 16-23) -/

/-- Round-half-to-even of a rational to an integer, which is how
`datetime.timedelta(seconds=x)` rounds a float duration to whole
microseconds. -/
def halfEvenRound (x : ℚ) : ℤ :=
  if x - (⌊x⌋ : ℚ) < (1 : ℚ)/2 then ⌊x⌋
  else if (1 : ℚ)/2 < x - (⌊x⌋ : ℚ) then ⌊x⌋ + 1
  else if ⌊x⌋ % 2 = 0 then ⌊x⌋ else ⌊x⌋ + 1

/-- Body of `format_srt_timestamp` after `timedelta` normalisation: the
argument is the whole duration in microseconds.  `int(td.total_seconds())`
truncates toward zero (`Int.tdiv`); Python `divmod` with a positive
divisor floors, which `Int.ediv`/`Int.emod` match; `td.microseconds` is
the non-negative microsecond remainder. -/
def fmtMicros (tdMicros : Int) : String :=
  let total_seconds : Int := Int.tdiv tdMicros 1000000
  let hours : Int := Int.ediv total_seconds 3600
  let remainder : Int := Int.emod total_seconds 3600
  let minutes : Int := Int.ediv remainder 60
  let seconds : Int := Int.emod remainder 60
  let milliseconds : Int := Int.ediv (Int.emod tdMicros 1000000) 1000
  intPad 2 hours ++ ":" ++ intPad 2 minutes ++ ":" ++ intPad 2 seconds ++ "," ++ intPad 3 milliseconds

/-- transcribe.py lines 16-23: format a duration in seconds as an SRT
timestamp. -/
def format_srt_timestamp (seconds : ℚ) : String :=
  fmtMicros (halfEvenRound (seconds * 1000000))

/-- Recogniser for the exact spec pattern `HH:MM:SS,mmm`: two digit
characters, a colon, two digits, a colon, two digits, a comma, three
digits. -/
def isSrtTimestamp (s : String) : Bool :=
  match s.data with
  | [h1, h2, c1, m1, m2, c2, s1, s2, c3, r1, r2, r3] =>
    isDigitChar h1 && isDigitChar h2 && (c1 == ':') &&
    isDigitChar m1 && isDigitChar m2 && (c2 == ':') &&
    isDigitChar s1 && isDigitChar s2 && (c3 == ',') &&
    isDigitChar r1 && isDigitChar r2 && isDigitChar r3
  | _ => false

/-- Recogniser for the pattern with an hour field of at least two digits
followed by `:MM:SS,mmm`. -/
def isSrtTimestampExt (s : String) : Bool :=
  let hrs := s.data.takeWhile isDigitChar
  let rest := s.data.dropWhile isDigitChar
  decide (2 ≤ hrs.length) &&
  match rest with
  | [c1, m1, m2, c2, s1, s2, c3, r1, r2, r3] =>
    (c1 == ':') && isDigitChar m1 && isDigitChar m2 && (c2 == ':') &&
    isDigitChar s1 && isDigitChar s2 && (c3 == ',') &&
    isDigitChar r1 && isDigitChar r2 && isDigitChar r3
  | _ => false

example : natRepr 105 = "105" := by decide
example : natPad 2 7 = "07" := by decide
example : intPad 2 (100 : Int) = "100" := by decide
example : fmtMicros 3661005000 = "01:01:01,005" := by decide
example : fmtMicros 360000000000 = "100:00:00,000" := by decide
example : isSrtTimestamp "01:01:01,005" = true := by decide
example : isSrtTimestamp "100:00:00,000" = false := by decide
example : isSrtTimestampExt "100:00:00,000" = true := by decide
example : pyStrip "  a b \n" = "a b" := by decide
example : splitOnChar ',' "srt, json".data = ["srt".data, " json".data] := by decide

/-! ## Segments and the three writers (transcribe.py lines 25-46) -/

/-- A transcription segment as produced by the external model: a start
time, an end time (floats, modelled as rationals) and the recognised
text.  `end` is a reserved word in Lean, hence `end_`. -/
structure Segment where
  start : ℚ
  end_ : ℚ
  text : String
deriving DecidableEq

/-- transcribe.py lines 25-30, one loop iteration of `write_srt` starting
at cue number `i`: each iteration performs three `f.write` calls, which
we collect in order. -/
def write_srt_writes_from (i : Nat) : List Segment → List String
  | [] => []
  | seg :: rest =>
    (natRepr i ++ "\n") ::
    (format_srt_timestamp seg.start ++ " --> " ++ format_srt_timestamp seg.end_ ++ "\n") ::
    (pyStrip seg.text ++ "\n\n") ::
    write_srt_writes_from (i + 1) rest

/-- The `f.write` calls of `write_srt` in order; `enumerate(segments, 1)`
starts the cue numbering at 1. -/
def write_srt_writes (segs : List Segment) : List String :=
  write_srt_writes_from 1 segs

/-- Concatenation of a list of strings, in order. -/
def concatStrings : List String → String
  | [] => ""
  | a :: l => a ++ concatStrings l

/-- The full text written by `write_srt` (the file is opened with mode
`w`, so this is the resulting file content). -/
def write_srt_content (segs : List Segment) : String :=
  concatStrings (write_srt_writes segs)

/-- transcribe.py lines 32-35: the `f.write` calls of `write_txt`, one
per segment. -/
def write_txt_writes : List Segment → List String
  | [] => []
  | seg :: rest => (pyStrip seg.text ++ "\n") :: write_txt_writes rest

/-- The full text written by `write_txt`. -/
def write_txt_content (segs : List Segment) : String :=
  concatStrings (write_txt_writes segs)

/-- One element of the `output` list built by `write_json`: a dict with
keys start, end, text. -/
structure JsonSeg where
  start : ℚ
  end_ : ℚ
  text : String
deriving DecidableEq

/-- transcribe.py lines 38-44: the loop of `write_json` appends one dict
per segment to the `output` accumulator. -/
def write_json_build : List Segment → List JsonSeg → List JsonSeg
  | [], output => output
  | seg :: rest, output =>
    write_json_build rest (output ++ [⟨seg.start, seg.end_, pyStrip seg.text⟩])

/-- The `output` list passed by `write_json` to `json.dump`. -/
def write_json_objs (segs : List Segment) : List JsonSeg :=
  write_json_build segs []

/-- A JSON value, to state what `json.dump` receives. -/
inductive Json where
  | num : ℚ → Json
  | str : String → Json
  | arr : List Json → Json
  | obj : List (String × Json) → Json

/-- The JSON object corresponding to one element of `output`. -/
def segJson (s : JsonSeg) : Json :=
  Json.obj [("start", Json.num s.start), ("end", Json.num s.end_), ("text", Json.str s.text)]

/-- The JSON value serialised by `write_json`: the array of the segment
objects. -/
def write_json_ast (segs : List Segment) : Json :=
  Json.arr ((write_json_objs segs).map segJson)

/-- Lower-case hexadecimal digit character, for `\uXXXX` escapes. -/
def hexDigitChar (d : Nat) : Char :=
  if d % 16 < 10 then Char.ofNat (48 + d % 16) else Char.ofNat (87 + d % 16)

/-- Four-digit hexadecimal rendering of a code unit for a `\uXXXX`
escape. -/
def uHex (n : Nat) : List Char :=
  ['\\', 'u', hexDigitChar (n / 4096), hexDigitChar (n / 256), hexDigitChar (n / 16), hexDigitChar n]

/-- Escaping of one character by `json.dump` with its default
`ensure_ascii=True`: printable ASCII other than quote and backslash is
kept, the common control characters get short escapes, and everything
else becomes `\uXXXX` code units (a surrogate pair beyond the BMP). -/
def jsonEscChar (c : Char) : List Char :=
  if c == '"' then ['\\', '"']
  else if c == '\\' then ['\\', '\\']
  else if c == '\x08' then ['\\', 'b']
  else if c == '\x0c' then ['\\', 'f']
  else if c == '\n' then ['\\', 'n']
  else if c == '\r' then ['\\', 'r']
  else if c == '\t' then ['\\', 't']
  else if 32 ≤ c.toNat && c.toNat ≤ 126 then [c]
  else if c.toNat < 65536 then uHex c.toNat
  else uHex (55296 + (c.toNat - 65536) / 1024) ++ uHex (56320 + (c.toNat - 65536) % 1024)

/-- JSON string literal rendering of `json.dump`. -/
def jsonQuote (s : String) : String :=
  String.mk ('"' :: s.data.flatMap jsonEscChar ++ ['"'])

/-- One `output` element as `json.dump(..., indent=2)` renders it inside
the top-level array (so at indentation level 1).  `numRender` stands for
the decimal rendering Python uses for the float start and end values. -/
def renderSeg (numRender : ℚ → String) (s : JsonSeg) : String :=
  "\x7b\n    \"start\": " ++ numRender s.start ++
  ",\n    \"end\": " ++ numRender s.end_ ++
  ",\n    \"text\": " ++ jsonQuote s.text ++ "\n  \x7d"

/-- The file content produced by `json.dump(output, f, indent=2)`: `[]`
for an empty list, otherwise the items joined by `,\n` at indentation 2
inside brackets. -/
def write_json_content (numRender : ℚ → String) (segs : List Segment) : String :=
  match write_json_objs segs with
  | [] => "[]"
  | x :: xs =>
    "[\n  " ++ renderSeg numRender x ++
    concatStrings (xs.map (fun y => ",\n  " ++ renderSeg numRender y)) ++ "\n]"

/-- Lines of a written text file: the file contents split at newlines,
with the final empty fragment after the terminating newline dropped. -/
def splitNewlines : List Char → List (List Char)
  | [] => [[]]
  | c :: rest =>
    if c == '\n' then [] :: splitNewlines rest
    else
      match splitNewlines rest with
      | [] => [[c]]
      | h :: t => (c :: h) :: t

/-- The list of lines of a file whose content is `s`. -/
def fileLines (s : String) : List String :=
  ((splitNewlines s.data).dropLast).map String.mk

example : write_txt_content [] = "" := by decide
example : write_srt_content [] = "" := by decide
example : fileLines "" = [] := by decide
example : fileLines "ab\ncd\n" = ["ab", "cd"] := by decide
example : jsonQuote "a\"b" = "\"a\\\"b\"" := by decide

/-! ## Paths and the output phase of main (transcribe.py lines 243-262) -/

/-- `os.path.basename` (posix): the characters after the last path
separator, i.e. the longest separator-free suffix. -/
def basenameStr (p : String) : String :=
  String.mk ((p.data.reverse.takeWhile (fun c => !(c == '/'))).reverse)

/-- Index of the last `.` in a character list, if any. -/
def lastDotIdx (l : List Char) : Option Nat :=
  (l.reverse.findIdx? (fun c => c == '.')).map (fun j => l.length - 1 - j)

/-- The root part of `os.path.splitext` on a separator-free name: the
extension starts at the last dot, provided some character strictly
before that dot is not itself a dot (so dotfiles like `.bashrc` keep
their name whole). -/
def splitextStem (p : String) : String :=
  match lastDotIdx p.data with
  | none => p
  | some k =>
    if (p.data.take k).any (fun c => !(c == '.')) then String.mk (p.data.take k) else p

/-- Head-of-list test for a path separator. -/
def headIsSlash : List Char → Bool
  | c :: _ => c == '/'
  | [] => false

/-- `os.path.join` (posix) for two components, as `main` uses it: an
absolute second component replaces the path; otherwise a separator is
inserted unless the first component is empty or already ends with one. -/
def joinPath (a b : String) : String :=
  if headIsSlash b.data then b
  else if a.data = [] then a ++ b
  else if headIsSlash a.data.reverse then a ++ b
  else a ++ "/" ++ b

/-- The output path `main` builds for one format: the input file base
name with the format extension, joined to the output directory
(transcribe.py lines 243, 250, 255, 260). -/
def target_path (output_dir file ext : String) : String :=
  joinPath output_dir (splitextStem (basenameStr file) ++ "." ++ ext)

/-- A file system: the set of directories that exist and the content of
each file path. -/
structure FileSystem where
  dirs : List String
  files : String → Option String

/-- `os.makedirs(d, exist_ok=True)`: ensure the directory exists; an
existing directory is not an error. -/
def makedirs (fs : FileSystem) (d : String) : FileSystem :=
  { fs with dirs := if d ∈ fs.dirs then fs.dirs else d :: fs.dirs }

/-- `open(path, "w")` followed by writes of `content`: the file is
truncated, so the previous content at that path is replaced whole. -/
def writeFileFS (fs : FileSystem) (p : String) (content : String) : FileSystem :=
  { fs with files := fun q => if q = p then some content else fs.files q }

/-- transcribe.py line 245: the requested formats, each comma-separated
token stripped and lower-cased. -/
def parse_formats (formatsArg : String) : List String :=
  (splitOnChar ',' formatsArg.data).map (fun l => strLower (pyStrip (String.mk l)))

/-- transcribe.py lines 243-262: the output phase of `main`.  The output
directory is created, then for each of the three known format tokens
that occurs in the parsed format list the corresponding file is
written.  Unknown tokens trigger no write. -/
def output_phase (numRender : ℚ → String) (fs : FileSystem)
    (output_dir file formatsArg : String) (segs : List Segment) : FileSystem :=
  let fs1 := makedirs fs output_dir
  let formats := parse_formats formatsArg
  let fs2 := if "srt" ∈ formats then
      writeFileFS fs1 (target_path output_dir file "srt") (write_srt_content segs)
    else fs1
  let fs3 := if "json" ∈ formats then
      writeFileFS fs2 (target_path output_dir file "json") (write_json_content numRender segs)
    else fs2
  if "txt" ∈ formats then
    writeFileFS fs3 (target_path output_dir file "txt") (write_txt_content segs)
  else fs3

example : basenameStr "/tmp/audio.mp3" = "audio.mp3" := by decide
example : splitextStem "audio.mp3" = "audio" := by decide
example : splitextStem ".bashrc" = ".bashrc" := by decide
example : splitextStem "..foo.txt" = "..foo" := by decide
example : target_path "out" "/tmp/audio.mp3" "srt" = "out/audio.srt" := by decide
example : target_path "out/" "audio.mp3" "json" = "out/audio.json" := by decide
example : target_path "" "audio.mp3" "txt" = "audio.txt" := by decide
example : parse_formats " SRT, json " = ["srt", "json"] := by decide

/-! ## Interactive setup (transcribe.py lines 48-158) -/

/-- The settings record threaded through `interactive_setup` (the
relevant fields of the argparse namespace). -/
structure Args where
  file : String
  language : Option String
  output_dir : String
  formats : String
  model_size : String
  device : String
  compute_type : String
  cpu_threads : Int
  beam_size : Int
deriving DecidableEq

/-- Parse the digits of a decimal numeral. -/
def digitsToNat : List Char → Option Nat
  | [] => none
  | l => if l.all isDigitChar then some (l.foldl (fun acc c => acc * 10 + (c.toNat - 48)) 0) else none

/-- Python `int(s)` on an already stripped string: an optional sign
followed by decimal digits; anything else raises `ValueError`, modelled
as `none`. -/
def pyParseInt (s : String) : Option Int :=
  match s.data with
  | '+' :: rest => (digitsToNat rest).map (fun n => (n : Int))
  | '-' :: rest => (digitsToNat rest).map (fun n => -(n : Int))
  | l => (digitsToNat l).map (fun n => (n : Int))

/-- One `input()` call: consumes the next line of the input stream,
`none` when the stream is exhausted (`EOFError`). -/
def readLine : List String → Option (String × List String)
  | [] => none
  | s :: rest => some (s, rest)

/-- transcribe.py lines 76-84: the file-path prompt loop.  The answer is
stripped, then stripped of double and single quotes, and the loop
repeats until `os.path.exists` and `os.path.isfile` hold, modelled by
the predicate `isFile`. -/
def file_prompt (isFile : String → Bool) : List String → Option (String × List String)
  | [] => none
  | s :: rest =>
    let file_path := stripChar '\'' (stripChar '"' (pyStrip s))
    if isFile file_path then some (file_path, rest) else file_prompt isFile rest

/-- transcribe.py lines 48-68, `get_user_choice`: an empty answer takes
the default when there is one; a number in range selects that option;
anything else repeats the prompt. -/
def get_user_choice (options : List String) (dflt : Option String) :
    List String → Option (String × List String)
  | [] => none
  | s :: rest =>
    let choice_str := pyStrip s
    if choice_str = "" then
      match dflt with
      | some d => some (d, rest)
      | none => get_user_choice options dflt rest
    else
      match pyParseInt choice_str with
      | none => get_user_choice options dflt rest
      | some choice =>
        if 1 ≤ choice ∧ choice ≤ options.length then
          some (options.getD (choice - 1).toNat "", rest)
        else get_user_choice options dflt rest

/-- transcribe.py lines 113-127: the CPU-thread-count prompt loop.  An
empty answer takes the default 0; otherwise the answer must parse as a
non-negative integer. -/
def cpu_threads_prompt : List String → Option (Int × List String)
  | [] => none
  | s :: rest =>
    let str := pyStrip s
    if str = "" then some (0, rest)
    else
      match pyParseInt str with
      | none => cpu_threads_prompt rest
      | some n => if 0 ≤ n then some (n, rest) else cpu_threads_prompt rest

/-- transcribe.py lines 130-143: the beam-size prompt loop.  An empty
answer takes the default 5; otherwise the answer must parse as a
positive integer. -/
def beam_size_prompt : List String → Option (Int × List String)
  | [] => none
  | s :: rest =>
    let str := pyStrip s
    if str = "" then some (5, rest)
    else
      match pyParseInt str with
      | none => beam_size_prompt rest
      | some n => if 0 < n then some (n, rest) else beam_size_prompt rest

/-- transcribe.py lines 87-94: device selection.  With a GPU available
the user chooses between cuda and cpu (default cuda); otherwise cpu is
used without consuming input. -/
def device_step (hasGpu : Bool) (inputs : List String) : Option (String × List String) :=
  if hasGpu then get_user_choice ["cuda", "cpu"] (some "cuda") inputs
  else some ("cpu", inputs)

/-- The model-size menu of transcribe.py line 97. -/
def model_sizes : List String := ["tiny", "base", "small", "medium", "large-v2", "large-v3"]

/-- transcribe.py lines 101-110: the compute-type menu depends on the
chosen device. -/
def compute_options (device : String) : List String × String :=
  if device = "cuda" then (["float16", "int8_float16", "int8"], "float16")
  else (["int8", "float32"], "int8")

/-- transcribe.py lines 70-158, `interactive_setup`: the prompt sequence
run when no file is given on the command line.  `isFile` models
`os.path.exists and os.path.isfile`; `hasGpu` models
`torch.cuda.is_available()`; the input stream is the list of answers.
The result is `none` when the stream runs out inside a prompt. -/
def interactive_setup (isFile : String → Bool) (hasGpu : Bool) (args : Args)
    (inputs : List String) : Option Args :=
  match file_prompt isFile inputs with
  | none => none
  | some (fp, ins1) =>
  match device_step hasGpu ins1 with
  | none => none
  | some (dev, ins2) =>
  match get_user_choice model_sizes (some "medium") ins2 with
  | none => none
  | some (ms, ins3) =>
  match get_user_choice (compute_options dev).1 (some (compute_options dev).2) ins3 with
  | none => none
  | some (ct, ins4) =>
  match (if dev = "cpu" then cpu_threads_prompt ins4 else some (args.cpu_threads, ins4)) with
  | none => none
  | some (cth, ins5) =>
  match beam_size_prompt ins5 with
  | none => none
  | some (bs, ins6) =>
  match readLine ins6 with
  | none => none
  | some (langIn, ins7) =>
  match readLine ins7 with
  | none => none
  | some (dirIn, ins8) =>
  match readLine ins8 with
  | none => none
  | some (fmtIn, _) =>
    let lang := pyStrip langIn
    let odir := pyStrip dirIn
    let fmts := strLower (pyStrip fmtIn)
    some { args with
      file := fp
      device := dev
      model_size := ms
      compute_type := ct
      cpu_threads := cth
      beam_size := bs
      language := if lang = "" then none else some lang
      output_dir := if odir = "" then "output" else odir
      formats := if fmts = "" then "srt" else fmts }

/-- A default argparse namespace, matching the parser defaults of
transcribe.py lines 164-172. -/
def defaultArgs : Args :=
  { file := ""
    language := none
    output_dir := "."
    formats := "srt,json"
    model_size := "medium"
    device := "auto"
    compute_type := "auto"
    cpu_threads := 0
    beam_size := 5 }

example : pyParseInt "42" = some 42 := by decide
example : pyParseInt "-3" = some (-3) := by decide
example : pyParseInt "x3" = none := by decide
example : pyParseInt "" = none := by decide
example :
    (interactive_setup (fun s => s == "a.wav") false defaultArgs
      ["a.wav", "", "", "", "", "", "", ""]).map Args.file = some "a.wav" := by decide
example :
    (interactive_setup (fun s => s == "a.wav") false defaultArgs
      ["bad", "\"a.wav\"", "3", "2", "4", "7", "en", "outdir", "SRT,TXT"]) =
    some { defaultArgs with
      file := "a.wav", device := "cpu", model_size := "small", compute_type := "float32",
      cpu_threads := 4, beam_size := 7, language := some "en", output_dir := "outdir",
      formats := "srt,txt" } := by decide

/-- Every third element of a list, starting with the first: applied to
the write calls of `write_srt` this selects the cue-number lines. -/
def everyThird : List String → List String
  | [] => []
  | a :: _ :: _ :: rest => a :: everyThird rest
  | a :: _ => [a]

/-! ## Basic lemmas about the string and digit helpers -/

/-- Two strings with equal character lists are equal. -/
theorem str_eq_of_data (a b : String) (h : a.data = b.data) : a = b := by
  cases a; cases b; exact congrArg String.mk h

/-- Appending strings appends their character lists. -/
theorem strData_append (a b : String) : (a ++ b).data = a.data ++ b.data := by
  cases a; cases b; rfl

/-- The digit character of any value is an ASCII digit. -/
theorem isDigitChar_digitChar (d : Nat) : isDigitChar (digitChar d) = true := by
  have h : ∀ k, k < 10 → isDigitChar (Char.ofNat (48 + k)) = true := by decide
  exact h (d % 10) (Nat.mod_lt d (by decide))

/-- Every character produced by the fuelled digit renderer is a digit. -/
theorem natDigitsAux_all (fuel n : Nat) :
    (natDigitsAux fuel n).all isDigitChar = true := by
  induction fuel generalizing n with
  | zero => rfl
  | succ fuel ih =>
    unfold natDigitsAux
    by_cases h : n < 10
    · simp [h, isDigitChar_digitChar]
    · simp [h, List.all_append, ih, isDigitChar_digitChar]

/-- Every character of a decimal rendering is a digit. -/
theorem natDigits_all (n : Nat) : (natDigits n).all isDigitChar = true :=
  natDigitsAux_all (n + 1) n

/-- The fuelled digit renderer with positive fuel emits at least one
character. -/
theorem natDigits_length_pos (n : Nat) : 1 ≤ (natDigits n).length := by
  unfold natDigits natDigitsAux
  by_cases h : n < 10
  · simp [h]
  · simp [h]

set_option maxRecDepth 8000 in
/-- Values below 100 need at most two decimal digits. -/
theorem natDigits_length_le_two : ∀ n, n < 100 → (natDigits n).length ≤ 2 := by decide

set_option maxRecDepth 80000 in
set_option maxHeartbeats 1000000 in
/-- Values below 1000 need at most three decimal digits. -/
theorem natDigits_length_le_three : ∀ n, n < 1000 → (natDigits n).length ≤ 3 := by decide

/-- The character list of a zero-padded rendering. -/
theorem natPad_data (w n : Nat) :
    (natPad w n).data = List.replicate (w - (natDigits n).length) '0' ++ natDigits n := rfl

/-- Every character of a zero-padded rendering is a digit. -/
theorem natPad_all (w n : Nat) : (natPad w n).data.all isDigitChar = true := by
  rw [natPad_data, List.all_append]
  have h1 : (List.replicate (w - (natDigits n).length) '0').all isDigitChar = true := by
    rw [List.all_eq_true]
    intro c hc
    rw [List.eq_of_mem_replicate hc]
    decide
  rw [h1, natDigits_all]
  rfl

/-- Zero padding reaches the requested width. -/
theorem natPad_length_ge (w n : Nat) : w ≤ (natPad w n).data.length := by
  rw [natPad_data]
  simp only [List.length_append, List.length_replicate]
  omega

/-- When the digits fit in the field, the padded width is exact. -/
theorem natPad_length_eq (w n : Nat) (h : (natDigits n).length ≤ w) :
    (natPad w n).data.length = w := by
  rw [natPad_data]
  simp only [List.length_append, List.length_replicate]
  omega

/-- Python formatting of a non-negative integer is the padded natural
rendering. -/
theorem intPad_natCast (w : Nat) (n : Nat) : intPad w ((n : Nat) : Int) = natPad w n := by
  unfold intPad
  rw [if_neg (by omega)]
  simp

/-- `takeWhile` passes over a satisfying block and stops at the first
failing element. -/
theorem takeWhile_all_append (p : Char → Bool) (l1 : List Char) (y : Char) (l2 : List Char)
    (h1 : l1.all p = true) (h2 : p y = false) :
    (l1 ++ y :: l2).takeWhile p = l1 := by
  induction l1 with
  | nil => simp [List.takeWhile, h2]
  | cons a t ih =>
    rw [List.all_cons, Bool.and_eq_true] at h1
    simp [List.takeWhile, h1.1, ih h1.2]

/-- `dropWhile` drops a satisfying block and stops at the first failing
element. -/
theorem dropWhile_all_append (p : Char → Bool) (l1 : List Char) (y : Char) (l2 : List Char)
    (h1 : l1.all p = true) (h2 : p y = false) :
    (l1 ++ y :: l2).dropWhile p = y :: l2 := by
  induction l1 with
  | nil => simp [List.dropWhile, h2]
  | cons a t ih =>
    rw [List.all_cons, Bool.and_eq_true] at h1
    simp [List.dropWhile, h1.1, ih h1.2]

/-! ## Shape of the formatted timestamp -/

/-- A non-negative rational rounds to a non-negative integer. -/
theorem halfEvenRound_nonneg (x : ℚ) (hx : 0 ≤ x) : 0 ≤ halfEvenRound x := by
  have hf : 0 ≤ ⌊x⌋ := Int.floor_nonneg.mpr hx
  unfold halfEvenRound
  split_ifs <;> omega

/-- Rounding an integral rational is the identity. -/
theorem halfEvenRound_intCast (n : ℤ) : halfEvenRound ((n : ℤ) : ℚ) = n := by
  simp [halfEvenRound]

/-- On a natural-number count of microseconds the formatter computes the
familiar base-60 decomposition, zero padded. -/
theorem fmtMicros_natCast (m : Nat) :
    fmtMicros ((m : Nat) : Int) =
    natPad 2 (m / 1000000 / 3600) ++ ":" ++ natPad 2 (m / 1000000 % 3600 / 60) ++ ":" ++
    natPad 2 (m / 1000000 % 3600 % 60) ++ "," ++ natPad 3 (m % 1000000 / 1000) := by
  simp only [fmtMicros]
  rw [show Int.tdiv ((m : Nat) : Int) 1000000 = (((m / 1000000 : Nat)) : Int) from rfl]
  rw [show Int.emod ((m : Nat) : Int) 1000000 = (((m % 1000000 : Nat)) : Int) from rfl]
  rw [show Int.ediv (((m / 1000000 : Nat)) : Int) 3600 = (((m / 1000000 / 3600 : Nat)) : Int) from rfl]
  rw [show Int.emod (((m / 1000000 : Nat)) : Int) 3600 = (((m / 1000000 % 3600 : Nat)) : Int) from rfl]
  rw [show Int.ediv (((m / 1000000 % 3600 : Nat)) : Int) 60 = (((m / 1000000 % 3600 / 60 : Nat)) : Int) from rfl]
  rw [show Int.emod (((m / 1000000 % 3600 : Nat)) : Int) 60 = (((m / 1000000 % 3600 % 60 : Nat)) : Int) from rfl]
  rw [show Int.ediv (((m % 1000000 : Nat)) : Int) 1000 = (((m % 1000000 / 1000 : Nat)) : Int) from rfl]
  rw [intPad_natCast, intPad_natCast, intPad_natCast, intPad_natCast]

/-- Pattern analysis of a padded `h:mnt:sec,ms` rendering: the extended
pattern always holds, and the exact 12-character pattern holds when the
hour value fits in two digits. -/
theorem fmt_pattern (h mnt sec ms : Nat) (hmnt : mnt < 60) (hsec : sec < 60) (hms : ms < 1000) :
    isSrtTimestampExt (natPad 2 h ++ ":" ++ natPad 2 mnt ++ ":" ++ natPad 2 sec ++ "," ++ natPad 3 ms) = true ∧
    (h < 100 →
      isSrtTimestamp (natPad 2 h ++ ":" ++ natPad 2 mnt ++ ":" ++ natPad 2 sec ++ "," ++ natPad 3 ms) = true) := by
  have hdata : (natPad 2 h ++ ":" ++ natPad 2 mnt ++ ":" ++ natPad 2 sec ++ "," ++ natPad 3 ms).data
      = (natPad 2 h).data ++ ':' ::
        ((natPad 2 mnt).data ++ ':' :: ((natPad 2 sec).data ++ ',' :: (natPad 3 ms).data)) := by
    simp only [strData_append]
    simp [List.append_assoc]
  obtain ⟨m1, m2, hm12⟩ := List.length_eq_two.mp
    (natPad_length_eq 2 mnt (natDigits_length_le_two mnt (by omega)))
  obtain ⟨s1, s2, hs12⟩ := List.length_eq_two.mp
    (natPad_length_eq 2 sec (natDigits_length_le_two sec (by omega)))
  obtain ⟨r1, r2, r3, hr123⟩ := List.length_eq_three.mp
    (natPad_length_eq 3 ms (natDigits_length_le_three ms (by omega)))
  have hmd := natPad_all 2 mnt
  rw [hm12] at hmd
  simp only [List.all_cons, List.all_nil, Bool.and_eq_true, Bool.and_true] at hmd
  have hsd := natPad_all 2 sec
  rw [hs12] at hsd
  simp only [List.all_cons, List.all_nil, Bool.and_eq_true, Bool.and_true] at hsd
  have hrd := natPad_all 3 ms
  rw [hr123] at hrd
  simp only [List.all_cons, List.all_nil, Bool.and_eq_true, Bool.and_true] at hrd
  have hHall := natPad_all 2 h
  have hHlen := natPad_length_ge 2 h
  have hHlen' : 2 ≤ (natPad 2 h).length := hHlen
  constructor
  · simp only [isSrtTimestampExt, hdata, hm12, hs12, hr123]
    rw [takeWhile_all_append isDigitChar _ ':' _ hHall (by decide),
      dropWhile_all_append isDigitChar _ ':' _ hHall (by decide)]
    simp [hmd.1, hmd.2, hsd.1, hsd.2, hrd.1, hrd.2.1, hrd.2.2, hHlen, hHlen']
  · intro hh
    obtain ⟨h1, h2, hh12⟩ := List.length_eq_two.mp
      (natPad_length_eq 2 h (natDigits_length_le_two h hh))
    have hhd := natPad_all 2 h
    rw [hh12] at hhd
    simp only [List.all_cons, List.all_nil, Bool.and_eq_true, Bool.and_true] at hhd
    simp only [isSrtTimestamp, hdata, hm12, hs12, hr123, hh12]
    simp [hhd.1, hhd.2, hmd.1, hmd.2, hsd.1, hsd.2, hrd.1, hrd.2.1, hrd.2.2]

/-- Claim C1, amended: for every non-negative duration the formatted
string is an at-least-two-digit zero-padded hour followed by
`:MM:SS,mmm`; it is exactly `HH:MM:SS,mmm` whenever the duration,
rounded to whole microseconds, is below 100 hours. -/
theorem C1_timestamp_format (s : ℚ) (hs : 0 ≤ s) :
    isSrtTimestampExt (format_srt_timestamp s) = true ∧
    (halfEvenRound (s * 1000000) < 360000000000 →
      isSrtTimestamp (format_srt_timestamp s) = true) := by
  have hμ : 0 ≤ halfEvenRound (s * 1000000) := halfEvenRound_nonneg _ (by positivity)
  obtain ⟨m, hm⟩ : ∃ m : ℕ, ((m : ℕ) : ℤ) = halfEvenRound (s * 1000000) :=
    ⟨_, Int.toNat_of_nonneg hμ⟩
  have hfmt : format_srt_timestamp s = fmtMicros ((m : ℕ) : ℤ) := by
    simp only [format_srt_timestamp, hm]
  rw [hfmt, fmtMicros_natCast]
  have hpat := fmt_pattern (m / 1000000 / 3600) (m / 1000000 % 3600 / 60)
    (m / 1000000 % 3600 % 60) (m % 1000000 / 1000) (by omega) (by omega) (by omega)
  refine ⟨hpat.1, fun hlt => hpat.2 ?_⟩
  rw [← hm] at hlt
  omega

/-- Claim C1 as stated fails: 100 hours is a non-negative duration whose
rendering `100:00:00,000` has a three-digit hour field. -/
theorem C1_counterexample :
    (0 : ℚ) ≤ 360000 ∧ isSrtTimestamp (format_srt_timestamp 360000) = false := by
  constructor
  · norm_num
  · have h1 : ((360000 : ℚ) * 1000000) = ((360000000000 : ℤ) : ℚ) := by norm_num
    simp only [format_srt_timestamp, h1, halfEvenRound_intCast]
    decide

/-- Witness for the amended claim C1 at one hour, one minute, one
second. -/
theorem C1_witness :
    isSrtTimestampExt (format_srt_timestamp 3661) = true ∧
    isSrtTimestamp (format_srt_timestamp 3661) = true := by
  have h := C1_timestamp_format 3661 (by norm_num)
  refine ⟨h.1, h.2 ?_⟩
  have h1 : ((3661 : ℚ) * 1000000) = ((3661000000 : ℤ) : ℚ) := by norm_num
  rw [h1, halfEvenRound_intCast]
  decide

/-! ## Claims C2, C3, C4: the writers on their inputs -/

/-- Claim C2: on zero segments each writer succeeds and produces a
well-formed empty body: empty files for SRT and TXT, the empty JSON
array for JSON. -/
theorem C2_empty_segments :
    write_srt_content [] = "" ∧ write_txt_content [] = "" ∧
    ∀ numRender : ℚ → String, write_json_content numRender [] = "[]" :=
  ⟨rfl, rfl, fun _ => rfl⟩

/-- The append-accumulator loop of `write_json` computes a map. -/
theorem write_json_build_eq (segs : List Segment) :
    ∀ acc, write_json_build segs acc =
      acc ++ segs.map (fun s => ⟨s.start, s.end_, pyStrip s.text⟩) := by
  induction segs with
  | nil => intro acc; simp [write_json_build]
  | cons seg rest ih => intro acc; simp [write_json_build, ih]

/-- Claim C3: `write_json` serialises the array of the input segments in
input order, with the start and end fields carrying exactly the
segments' start and end values. -/
theorem C3_json_array (segs : List Segment) :
    write_json_ast segs = Json.arr (segs.map fun s =>
      Json.obj [("start", Json.num s.start), ("end", Json.num s.end_),
        ("text", Json.str (pyStrip s.text))]) := by
  simp [write_json_ast, write_json_objs, write_json_build_eq, segJson]

/-- The cue-number lines of the SRT writer starting at cue `n` are the
decimal renderings of `n, n+1, ...`. -/
theorem everyThird_srt_writes_from (segs : List Segment) :
    ∀ n, everyThird (write_srt_writes_from n segs) =
      (List.range' n segs.length).map (fun i => natRepr i ++ "\n") := by
  induction segs with
  | nil => intro n; simp [write_srt_writes_from, everyThird]
  | cons seg rest ih =>
    intro n
    simp only [write_srt_writes_from, everyThird, List.length_cons]
    rw [List.range'_succ]
    simp [ih]

/-- Three writes happen per segment. -/
theorem srt_writes_from_length (segs : List Segment) :
    ∀ n, (write_srt_writes_from n segs).length = 3 * segs.length := by
  induction segs with
  | nil => intro n; simp [write_srt_writes_from]
  | cons seg rest ih =>
    intro n
    simp only [write_srt_writes_from, List.length_cons, ih]
    omega

/-- Claim C4: the cue numbers written by `write_srt` are exactly
`1, 2, ..., n` in order, whatever the segments contain. -/
theorem C4_cue_numbers (segs : List Segment) :
    everyThird (write_srt_writes segs) =
      (List.range' 1 segs.length).map (fun i => natRepr i ++ "\n") ∧
    (write_srt_writes segs).length = 3 * segs.length :=
  ⟨everyThird_srt_writes_from segs 1, srt_writes_from_length segs 1⟩

/-! ## Claims C7 and C9: line structure and stripping -/

/-- A string is its character list. -/
theorem str_mk_data (s : String) : String.mk s.data = s := by cases s; rfl

/-- Splitting at newlines always yields at least one fragment. -/
theorem splitNewlines_ne_nil (l : List Char) : splitNewlines l ≠ [] := by
  cases l with
  | nil => simp [splitNewlines]
  | cons c rest =>
    simp only [splitNewlines]
    by_cases h : (c == '\n') = true
    · simp [h]
    · rw [Bool.not_eq_true] at h
      cases hs : splitNewlines rest <;> simp [h, hs]

/-- Splitting a newline-free block followed by a newline peels off that
block as one fragment. -/
theorem splitNewlines_append (l1 l2 : List Char) (h : '\n' ∉ l1) :
    splitNewlines (l1 ++ '\n' :: l2) = l1 :: splitNewlines l2 := by
  induction l1 with
  | nil => simp [splitNewlines]
  | cons c t ih =>
    rw [List.mem_cons] at h
    push_neg at h
    have hc : (c == '\n') = false := beq_eq_false_iff_ne.mpr (fun e => h.1 e.symm)
    simp only [List.cons_append, splitNewlines, List.append_eq]
    rw [ih h.2]
    simp [hc]

/-- The first line of a file starting with a newline-free block and a
newline is that block. -/
theorem fileLines_cons (t rest : String) (h : '\n' ∉ t.data) :
    fileLines (t ++ "\n" ++ rest) = t :: fileLines rest := by
  unfold fileLines
  have hd : (t ++ "\n" ++ rest).data = t.data ++ '\n' :: rest.data := by
    simp [strData_append]
  rw [hd, splitNewlines_append _ _ h,
    List.dropLast_cons_of_ne_nil (splitNewlines_ne_nil rest.data)]
  simp [str_mk_data]

/-- Claim C7, amended: when no stripped segment text contains a newline,
the plain-text file has exactly one line per segment, the i-th line
being the i-th stripped text. -/
theorem C7_txt_lines (segs : List Segment)
    (h : ∀ seg ∈ segs, '\n' ∉ (pyStrip seg.text).data) :
    fileLines (write_txt_content segs) = segs.map (fun seg => pyStrip seg.text) := by
  induction segs with
  | nil => rfl
  | cons seg rest ih =>
    have hh : '\n' ∉ (pyStrip seg.text).data := h seg (by simp)
    have hrest := fun s hs => h s (List.mem_cons_of_mem seg hs)
    show fileLines (pyStrip seg.text ++ "\n" ++ write_txt_content rest) = _
    rw [fileLines_cons _ _ hh, ih hrest]
    simp

/-- Claim C7 as stated fails: a segment whose text contains an inner
newline produces two lines, and neither equals the segment text. -/
theorem C7_counterexample :
    ¬ (fileLines (write_txt_content [(⟨0, 1, "a\nb"⟩ : Segment)]) =
        [(⟨0, 1, "a\nb"⟩ : Segment).text]) := by decide

/-- Witness for the amended claim C7 on one newline-free segment text
that needs stripping. -/
theorem C7_witness :
    fileLines (write_txt_content [(⟨0, 1, " hi "⟩ : Segment)]) = ["hi"] := by
  have h := C7_txt_lines [(⟨0, 1, " hi "⟩ : Segment)] (by decide)
  rw [h]
  decide

/-- The third write of each SRT cue is the stripped segment text with
the cue-terminating blank line. -/
theorem srt_writes_from_text (segs : List Segment) :
    ∀ n i, (write_srt_writes_from n segs)[3 * i + 2]? =
      segs[i]?.map (fun seg => pyStrip seg.text ++ "\n\n") := by
  induction segs with
  | nil => intro n i; simp [write_srt_writes_from]
  | cons seg rest ih =>
    intro n i
    cases i with
    | zero => simp [write_srt_writes_from]
    | succ i =>
      have harith : 3 * (i + 1) + 2 = 3 * i + 2 + 1 + 1 + 1 := by ring
      simp only [write_srt_writes_from, harith, List.getElem?_cons_succ]
      rw [ih (n + 1) i]

/-- The txt writes are the stripped texts with newlines, index by
index. -/
theorem txt_writes_get (segs : List Segment) :
    ∀ i : Nat, (write_txt_writes segs)[i]? =
      segs[i]?.map (fun seg => pyStrip seg.text ++ "\n") := by
  induction segs with
  | nil => intro i; simp [write_txt_writes]
  | cons seg rest ih =>
    intro i
    cases i with
    | zero => simp [write_txt_writes]
    | succ i =>
      simp only [write_txt_writes, List.getElem?_cons_succ]
      rw [ih i]

/-- Claim C9: in each of the three writers the text emitted for the i-th
segment is the stripped text `seg.text.strip()`, not the raw text. -/
theorem C9_stripped_text (segs : List Segment) (i : Nat) :
    (write_srt_writes segs)[3 * i + 2]? =
      segs[i]?.map (fun seg => pyStrip seg.text ++ "\n\n") ∧
    (write_txt_writes segs)[i]? =
      segs[i]?.map (fun seg => pyStrip seg.text ++ "\n") ∧
    (write_json_objs segs)[i]?.map JsonSeg.text =
      segs[i]?.map (fun seg => pyStrip seg.text) := by
  refine ⟨srt_writes_from_text segs 1 i, txt_writes_get segs i, ?_⟩
  rw [show write_json_objs segs = segs.map (fun s => ⟨s.start, s.end_, pyStrip s.text⟩) from
    write_json_build_eq segs []]
  rw [List.getElem?_map]
  cases h : segs[i]? <;> simp [h]

/-! ## Claims C5, C6, C10: paths, directory creation, overwriting -/

/-- Construction and destruction of strings cancel. -/
@[simp]
theorem data_mk (l : List Char) : (String.mk l).data = l := rfl

/-- Elements picked by `takeWhile` satisfy the predicate. -/
theorem mem_takeWhile_sat (p : Char → Bool) (l : List Char) (c : Char)
    (h : c ∈ l.takeWhile p) : p c = true := by
  induction l with
  | nil => simp [List.takeWhile] at h
  | cons a t ih =>
    rw [List.takeWhile_cons] at h
    by_cases ha : p a = true
    · rw [if_pos ha] at h
      rcases List.mem_cons.mp h with rfl | hm
      · exact ha
      · exact ih hm
    · rw [if_neg ha] at h
      cases h

/-- `takeWhile` keeps a list all of whose elements satisfy the
predicate. -/
theorem takeWhile_of_all (p : Char → Bool) (l : List Char) (h : l.all p = true) :
    l.takeWhile p = l := by
  induction l with
  | nil => rfl
  | cons a t ih =>
    rw [List.all_cons, Bool.and_eq_true] at h
    rw [List.takeWhile_cons, if_pos h.1, ih h.2]

/-- The basename of any path contains no separator. -/
theorem basename_no_slash (f : String) : '/' ∉ (basenameStr f).data := by
  intro hmem
  simp only [basenameStr, data_mk, List.mem_reverse] at hmem
  have := mem_takeWhile_sat _ _ _ hmem
  simp at this

/-- Dropping an extension keeps a name separator-free. -/
theorem stem_no_slash (b : String) (hb : '/' ∉ b.data) : '/' ∉ (splitextStem b).data := by
  unfold splitextStem
  split
  · exact hb
  · split
    · intro hmem
      rw [data_mk] at hmem
      exact hb (List.take_subset _ _ hmem)
    · exact hb

/-- A separator-free character list does not start with a separator. -/
theorem headIsSlash_false_of_no_slash (l : List Char) (h : '/' ∉ l) :
    headIsSlash l = false := by
  cases l with
  | nil => rfl
  | cons c t =>
    rw [List.mem_cons] at h
    push_neg at h
    simp only [headIsSlash]
    exact beq_eq_false_iff_ne.mpr (fun e => h.1 e.symm)

/-- The reverse of a separator-free string passes the basename filter. -/
theorem bdata_all (b : String) (hb : '/' ∉ b.data) :
    b.data.reverse.all (fun c => !(c == '/')) = true := by
  rw [List.all_eq_true]
  intro c hc
  rw [List.mem_reverse] at hc
  have : c ≠ '/' := fun e => hb (e ▸ hc)
  simp [this]

/-- The character list of a join with a relative name: a prefix
depending only on the directory, followed by the name. -/
theorem joinPath_data (a b : String) (hb : headIsSlash b.data = false) :
    (joinPath a b).data =
      (if a.data = [] then ([] : List Char)
       else if headIsSlash a.data.reverse = true then a.data else a.data ++ ['/']) ++ b.data := by
  unfold joinPath
  rw [hb]
  simp only [Bool.false_eq_true, if_false]
  split_ifs with h1 h2
  · rw [strData_append, h1]
  · rw [strData_append]
  · rw [strData_append, strData_append]

/-- The join of a directory and a relative name extends the directory. -/
theorem joinPath_prefix (a b : String) (hb : headIsSlash b.data = false) :
    ∃ rest, (joinPath a b).data = a.data ++ rest := by
  rw [joinPath_data a b hb]
  split_ifs with h1 h2
  · exact ⟨b.data, by rw [h1]⟩
  · exact ⟨b.data, rfl⟩
  · exact ⟨'/' :: b.data, by simp⟩

/-- Joins of distinct relative names under the same directory are
distinct paths. -/
theorem joinPath_ne (a b1 b2 : String) (hb1 : headIsSlash b1.data = false)
    (hb2 : headIsSlash b2.data = false) (hne : b1.data ≠ b2.data) :
    joinPath a b1 ≠ joinPath a b2 := by
  intro he
  have hd := congrArg String.data he
  rw [joinPath_data a b1 hb1, joinPath_data a b2 hb2] at hd
  exact hne (List.append_cancel_left hd)

/-- The basename recovers a separator-free name from a join. -/
theorem basename_joinPath (a b : String) (hb : '/' ∉ b.data) :
    basenameStr (joinPath a b) = b := by
  have hbf : headIsSlash b.data = false := headIsSlash_false_of_no_slash b.data hb
  have hball := bdata_all b hb
  unfold basenameStr
  rw [joinPath_data a b hbf]
  split_ifs with h1 h2
  · rw [List.nil_append, takeWhile_of_all _ _ hball, List.reverse_reverse, str_mk_data]
  · obtain ⟨c, t, hct⟩ : ∃ c t, a.data.reverse = c :: t := by
      cases hr : a.data.reverse with
      | nil => rw [hr] at h2; cases h2
      | cons c t => exact ⟨c, t, rfl⟩
    have hc : c = '/' := by
      rw [hct] at h2
      simpa [headIsSlash] using h2
    rw [List.reverse_append, hct, hc,
      takeWhile_all_append _ _ '/' _ hball (by decide), List.reverse_reverse, str_mk_data]
  · rw [List.reverse_append, List.reverse_append]
    simp only [List.reverse_cons, List.reverse_nil, List.nil_append, List.cons_append,
      List.append_assoc]
    rw [takeWhile_all_append _ _ '/' _ hball (by decide), List.reverse_reverse, str_mk_data]

/-- An output file name built by `main` contains no separator when its
extension does not. -/
theorem name_no_slash (f e : String) (he : '/' ∉ e.data) :
    '/' ∉ (splitextStem (basenameStr f) ++ "." ++ e).data := by
  rw [strData_append, strData_append]
  intro hm
  rcases List.mem_append.mp hm with hm | hm
  · rcases List.mem_append.mp hm with hm | hm
    · exact stem_no_slash _ (basename_no_slash f) hm
    · exact absurd hm (by decide)
  · exact he hm

/-- Distinct separator-free extensions give distinct output paths for
the same input file and output directory. -/
theorem target_path_ne (d f e1 e2 : String) (hne : e1.data ≠ e2.data)
    (he1 : '/' ∉ e1.data) (he2 : '/' ∉ e2.data) :
    target_path d f e1 ≠ target_path d f e2 := by
  unfold target_path
  apply joinPath_ne
  · exact headIsSlash_false_of_no_slash _ (name_no_slash f e1 he1)
  · exact headIsSlash_false_of_no_slash _ (name_no_slash f e2 he2)
  · rw [strData_append, strData_append, strData_append, strData_append]
    intro hd
    exact hne (List.append_cancel_left hd)

/-- Claim C6: each requested output file is named after the input file
base name with the format extension, and its path extends the chosen
output directory. -/
theorem C6_output_names (output_dir file ext : String)
    (h : ext ∈ (["srt", "json", "txt"] : List String)) :
    basenameStr (target_path output_dir file ext) =
      splitextStem (basenameStr file) ++ "." ++ ext ∧
    ∃ rest, (target_path output_dir file ext).data = output_dir.data ++ rest := by
  have hext : '/' ∉ ext.data := by
    simp only [List.mem_cons, List.not_mem_nil, or_false] at h
    rcases h with rfl | rfl | rfl <;> decide
  have hn := name_no_slash file ext hext
  exact ⟨basename_joinPath _ _ hn,
    joinPath_prefix _ _ (headIsSlash_false_of_no_slash _ hn)⟩

/-- Witness for claim C6 on a concrete file and directory. -/
theorem C6_witness :
    basenameStr (target_path "out" "/tmp/a.wav" "srt") =
      splitextStem (basenameStr "/tmp/a.wav") ++ "." ++ "srt" ∧
    ∃ rest, (target_path "out" "/tmp/a.wav" "srt").data = "out".data ++ rest :=
  C6_output_names "out" "/tmp/a.wav" "srt" (by decide)

/-- Looking up the path just written returns the new content. -/
theorem writeFileFS_self (fs : FileSystem) (p : String) (c : String) :
    (writeFileFS fs p c).files p = some c := by
  simp [writeFileFS]

/-- Looking up any other path is unaffected by a write. -/
theorem writeFileFS_other (fs : FileSystem) (p c q : String) (h : q ≠ p) :
    (writeFileFS fs p c).files q = fs.files q := by
  simp [writeFileFS, h]

/-- Writing a file changes no directories. -/
theorem writeFileFS_dirs (fs : FileSystem) (p c : String) :
    (writeFileFS fs p c).dirs = fs.dirs := rfl

/-- After `makedirs` the directory exists. -/
theorem makedirs_mem (fs : FileSystem) (d : String) : d ∈ (makedirs fs d).dirs := by
  unfold makedirs
  split_ifs with h
  · exact h
  · exact List.mem_cons_self d fs.dirs

/-- `makedirs` does not touch file contents. -/
theorem makedirs_files (fs : FileSystem) (d : String) : (makedirs fs d).files = fs.files := rfl

/-- Claim C5: the output phase creates the output directory, and each
requested file ends up holding exactly the freshly produced content, for
any prior file-system state: pre-existing content at the target path is
replaced, not appended to. -/
theorem C5_mkdir_overwrite (numRender : ℚ → String) (fs : FileSystem)
    (output_dir file formatsArg : String) (segs : List Segment) :
    output_dir ∈ (output_phase numRender fs output_dir file formatsArg segs).dirs ∧
    ("srt" ∈ parse_formats formatsArg →
      (output_phase numRender fs output_dir file formatsArg segs).files
        (target_path output_dir file "srt") = some (write_srt_content segs)) ∧
    ("json" ∈ parse_formats formatsArg →
      (output_phase numRender fs output_dir file formatsArg segs).files
        (target_path output_dir file "json") = some (write_json_content numRender segs)) ∧
    ("txt" ∈ parse_formats formatsArg →
      (output_phase numRender fs output_dir file formatsArg segs).files
        (target_path output_dir file "txt") = some (write_txt_content segs)) := by
  have hsj : target_path output_dir file "srt" ≠ target_path output_dir file "json" :=
    target_path_ne _ _ _ _ (by decide) (by decide) (by decide)
  have hst : target_path output_dir file "srt" ≠ target_path output_dir file "txt" :=
    target_path_ne _ _ _ _ (by decide) (by decide) (by decide)
  have hjt : target_path output_dir file "json" ≠ target_path output_dir file "txt" :=
    target_path_ne _ _ _ _ (by decide) (by decide) (by decide)
  refine ⟨?_, ?_, ?_, ?_⟩
  · simp only [output_phase]
    split_ifs <;> exact makedirs_mem fs output_dir
  · intro h
    simp only [output_phase]
    split_ifs with h1 h2 h3 <;> try exact absurd h (by assumption)
    all_goals first
      | (rw [writeFileFS_other _ _ _ _ hst, writeFileFS_other _ _ _ _ hsj]
         exact writeFileFS_self _ _ _)
      | (rw [writeFileFS_other _ _ _ _ hst]
         exact writeFileFS_self _ _ _)
      | (rw [writeFileFS_other _ _ _ _ hsj]
         exact writeFileFS_self _ _ _)
      | exact writeFileFS_self _ _ _
  · intro h
    simp only [output_phase]
    split_ifs with h1 h2 h3 <;> first
      | (rw [writeFileFS_other _ _ _ _ hjt]
         exact writeFileFS_self _ _ _)
      | exact writeFileFS_self _ _ _
  · intro h
    simp only [output_phase]
    split_ifs with h1 h2 h3 <;> exact writeFileFS_self _ _ _

/-- Witness for claim C5: a concrete run over an empty file system with
all three formats requested. -/
theorem C5_witness :
    "out" ∈ (output_phase (fun _ => "0") ⟨[], fun _ => none⟩ "out" "a.wav" "srt,json,txt" []).dirs ∧
    (output_phase (fun _ => "0") ⟨[], fun _ => none⟩ "out" "a.wav" "srt,json,txt" []).files
      (target_path "out" "a.wav" "srt") = some (write_srt_content []) ∧
    (output_phase (fun _ => "0") ⟨[], fun _ => none⟩ "out" "a.wav" "srt,json,txt" []).files
      (target_path "out" "a.wav" "json") = some (write_json_content (fun _ => "0") []) ∧
    (output_phase (fun _ => "0") ⟨[], fun _ => none⟩ "out" "a.wav" "srt,json,txt" []).files
      (target_path "out" "a.wav" "txt") = some (write_txt_content []) := by
  have h := C5_mkdir_overwrite (fun _ => "0") ⟨[], fun _ => none⟩ "out" "a.wav" "srt,json,txt" []
  exact ⟨h.1, h.2.1 (by decide), h.2.2.1 (by decide), h.2.2.2 (by decide)⟩

/-- Claim C10: whatever tokens the --formats string contains, the only
paths the output phase can write are the three known targets; at every
other path the file system is untouched, and no error is possible (the
output phase is a total function). -/
theorem C10_unknown_tokens (numRender : ℚ → String) (fs : FileSystem)
    (output_dir file formatsArg : String) (segs : List Segment) (p : String)
    (h1 : p ≠ target_path output_dir file "srt")
    (h2 : p ≠ target_path output_dir file "json")
    (h3 : p ≠ target_path output_dir file "txt") :
    (output_phase numRender fs output_dir file formatsArg segs).files p = fs.files p := by
  simp only [output_phase]
  split_ifs <;>
    simp only [writeFileFS_other _ _ _ _ h1, writeFileFS_other _ _ _ _ h2,
      writeFileFS_other _ _ _ _ h3, makedirs_files]

/-- Witness for claim C10: a format string with an unknown token writes
nothing anywhere but the known targets; here the file at an unrelated
path stays absent. -/
theorem C10_witness :
    (output_phase (fun _ => "0") ⟨[], fun _ => none⟩ "out" "a.wav" "bogus,srt" []).files
      "out/other.xyz" = (fun _ => (none : Option String)) "out/other.xyz" :=
  C10_unknown_tokens (fun _ => "0") ⟨[], fun _ => none⟩ "out" "a.wav" "bogus,srt" []
    "out/other.xyz" (by decide) (by decide) (by decide)

/-! ## Claim C8: interactive setup postconditions -/

/-- The file prompt only returns paths accepted by the file test. -/
theorem file_prompt_sound (isFile : String → Bool) :
    ∀ inputs fp rest, file_prompt isFile inputs = some (fp, rest) → isFile fp = true := by
  intro inputs
  induction inputs with
  | nil => intro fp rest h; cases h
  | cons s t ih =>
    intro fp rest h
    simp only [file_prompt] at h
    split_ifs at h with hf
    · cases h; exact hf
    · exact ih fp rest h

/-- The beam-size prompt only returns positive values. -/
theorem beam_size_prompt_sound :
    ∀ inputs b rest, beam_size_prompt inputs = some (b, rest) → 0 < b := by
  intro inputs
  induction inputs with
  | nil => intro b rest h; cases h
  | cons s t ih =>
    intro b rest h
    simp only [beam_size_prompt] at h
    split_ifs at h with he
    · cases h; decide
    · cases hp : pyParseInt (pyStrip s) with
      | none => rw [hp] at h; exact ih b rest h
      | some n =>
        simp only [hp] at h
        split_ifs at h with hn
        · cases h; exact hn
        · exact ih b rest h

/-- The CPU-thread prompt only returns non-negative values. -/
theorem cpu_threads_prompt_sound :
    ∀ inputs n rest, cpu_threads_prompt inputs = some (n, rest) → 0 ≤ n := by
  intro inputs
  induction inputs with
  | nil => intro n rest h; cases h
  | cons s t ih =>
    intro n rest h
    simp only [cpu_threads_prompt] at h
    split_ifs at h with he
    · cases h; decide
    · cases hp : pyParseInt (pyStrip s) with
      | none => rw [hp] at h; exact ih n rest h
      | some k =>
        simp only [hp] at h
        split_ifs at h with hn
        · cases h; exact hn
        · exact ih n rest h

/-- Claim C8: whenever `interactive_setup` returns, the collected file
passes the file test, the beam size is positive, and on the cpu device
the thread count is non-negative; invalid answers never escape the
prompt loops. -/
theorem C8_interactive_valid (isFile : String → Bool) (hasGpu : Bool) (args0 : Args)
    (inputs : List String) (args : Args)
    (h : interactive_setup isFile hasGpu args0 inputs = some args) :
    isFile args.file = true ∧ 0 < args.beam_size ∧
    (args.device = "cpu" → 0 ≤ args.cpu_threads) := by
  unfold interactive_setup at h
  split at h
  · exact Option.noConfusion h
  rename_i fp ins1 heq1
  split at h
  · exact Option.noConfusion h
  rename_i dev ins2 heq2
  split at h
  · exact Option.noConfusion h
  rename_i ms ins3 heq3
  split at h
  · exact Option.noConfusion h
  rename_i ct ins4 heq4
  split at h
  · exact Option.noConfusion h
  rename_i cth ins5 heq5
  split at h
  · exact Option.noConfusion h
  rename_i bs ins6 heq6
  split at h
  · exact Option.noConfusion h
  rename_i langIn ins7 heq7
  split at h
  · exact Option.noConfusion h
  rename_i dirIn ins8 heq8
  split at h
  · exact Option.noConfusion h
  rename_i fmtIn ins9 heq9
  injection h with h
  subst h
  refine ⟨?_, ?_, ?_⟩
  · simpa using file_prompt_sound isFile inputs fp ins1 heq1
  · simpa using beam_size_prompt_sound ins5 bs ins6 heq6
  · intro hdev
    simp only at hdev
    rw [if_pos hdev] at heq5
    simpa using cpu_threads_prompt_sound ins4 cth ins5 heq5

/-- Witness for claim C8: a concrete interactive session on a cpu-only
machine with one rejected file answer, menu choices, and explicit
thread and beam answers. -/
theorem C8_witness :
    (fun s => s == "a.wav")
      ({ defaultArgs with
          file := "a.wav", device := "cpu", model_size := "small", compute_type := "float32",
          cpu_threads := 4, beam_size := 7, language := some "en", output_dir := "outdir",
          formats := "srt,txt" } : Args).file = true ∧
    0 < ({ defaultArgs with
          file := "a.wav", device := "cpu", model_size := "small", compute_type := "float32",
          cpu_threads := 4, beam_size := 7, language := some "en", output_dir := "outdir",
          formats := "srt,txt" } : Args).beam_size ∧
    (({ defaultArgs with
          file := "a.wav", device := "cpu", model_size := "small", compute_type := "float32",
          cpu_threads := 4, beam_size := 7, language := some "en", output_dir := "outdir",
          formats := "srt,txt" } : Args).device = "cpu" →
      0 ≤ ({ defaultArgs with
          file := "a.wav", device := "cpu", model_size := "small", compute_type := "float32",
          cpu_threads := 4, beam_size := 7, language := some "en", output_dir := "outdir",
          formats := "srt,txt" } : Args).cpu_threads) :=
  C8_interactive_valid (fun s => s == "a.wav") false defaultArgs
    ["bad", "\"a.wav\"", "3", "2", "4", "7", "en", "outdir", "SRT,TXT"]
    { defaultArgs with
        file := "a.wav", device := "cpu", model_size := "small", compute_type := "float32",
        cpu_threads := 4, beam_size := 7, language := some "en", output_dir := "outdir",
        formats := "srt,txt" } (by decide)
